import Mathlib

/-!
Verification of the TVM pipeline executor facade (`pipeline_executor.cc`).

This file gives a shallow embedding of the executor's data model and
operations and proves theorems settling the specification claims about
input/parameter routing, initialization, module loading order and the
packed-function surface.

The facade source delegates to components whose implementation lives
outside the excerpted file (the configuration loader, the
connection-config lookup operators and the scheduler initializer); those
are modelled from the specification, and their doc comments say so
explicitly.  Everything else is translated from the source.
-/

namespace TVMPipe

/-- An opaque runtime module: either loaded from a library file, or a graph
executor instantiated from a graph json, a library module and a device. -/
inductive Module where
  | loadedFromFile (file : String)
  | graphExecutor (json : String) (lib : Module) (device_type : Int) (device_id : Int)
deriving DecidableEq

/-- Opaque tensor handle standing for a `DLTensor*` argument. -/
structure DLTensor where
  id : Nat
deriving DecidableEq

/-- Per-stage artifact description consumed by `CreateGraphModules`
(the fields of `GraphModuleLoadInfo`). -/
structure GraphModuleLoadInfo where
  lib_name : String
  json_name : String
  params_name : String
  dev : String
deriving DecidableEq

/-- `ModuleConfig`: stage index to artifact description. -/
abbrev ModuleConfig := List (Nat × GraphModuleLoadInfo)

/-- Modelled from the spec: the parsed pipeline-configuration text
(the section 6 schema): declared stage indices, stage-to-stage port
connections as `(from stage, output port, to stage, input port)`, the
external input map `name -> (stage, port)` and the parameter group map
`name -> stage`.  The JSON parser itself is out of scope. -/
structure ParsedPipelineConfig where
  stages : List Nat
  connections : List (Nat × String × Nat × String)
  input_connection : List (String × Nat × String)
  param_connection : List (String × Nat)
deriving DecidableEq

/-- Edges over stage indices induced by the connection map. -/
def connEdges (conns : List (Nat × String × Nat × String)) : List (Nat × Nat) :=
  conns.map (fun c => (c.1, c.2.2.1))

/-- All stage indices mentioned by some edge. -/
def graphNodes (es : List (Nat × Nat)) : List Nat :=
  (es.map Prod.fst ++ es.map Prod.snd).dedup

/-- One elimination round of the acyclicity check: keep exactly the
vertices that still have an incoming edge from a remaining vertex. -/
def removeSources (es : List (Nat × Nat)) (s : List Nat) : List Nat :=
  s.filter (fun v => es.any (fun e => decide (e.1 ∈ s) && decide (e.2 = v)))

/-- Iterated source elimination. -/
def kahnIter (es : List (Nat × Nat)) : Nat → List Nat → List Nat
  | 0, s => s
  | n + 1, s => kahnIter es n (removeSources es s)

/-- Modelled from the spec: the connection graph is acyclic iff iterated
source elimination removes every vertex. -/
def isAcyclic (es : List (Nat × Nat)) : Bool :=
  (kahnIter es (graphNodes es).length (graphNodes es)).isEmpty

/-- A cycle among stage indices: a nonempty list of indices, each of which
has an edge to its cyclic successor. -/
def IsCycle (es : List (Nat × Nat)) (l : List Nat) : Prop :=
  l ≠ [] ∧ ∀ i, i < l.length → (l.getD i 0, l.getD ((i + 1) % l.length) 0) ∈ es

instance (es : List (Nat × Nat)) (l : List Nat) : Decidable (IsCycle es l) := by
  unfold IsCycle; infer_instance

/-- Configuration-load failures (section 7 taxonomy). -/
inductive ConfigError where
  | cyclicPipelineError
  | unknownStageIndex
  | duplicateInputName
  | duplicateParamGroup
deriving DecidableEq

/-- Every stage index referenced by a connection, input binding or
parameter binding is a declared stage. -/
def stagesReferencedValid (cfg : ParsedPipelineConfig) : Bool :=
  (connEdges cfg.connections).all
      (fun e => cfg.stages.contains e.1 && cfg.stages.contains e.2) &&
    cfg.input_connection.all (fun p => cfg.stages.contains p.2.1) &&
    cfg.param_connection.all (fun p => cfg.stages.contains p.2)

/-- Modelled from the spec: `Load(configText)` (section 4.2).  A cyclic
connection graph always fails with `CyclicPipelineError` (sections 4.2 and
8); the remaining validations are referenced-stage existence and key
uniqueness of the two name maps.  A successful load returns the (now
validated, immutable) configuration unchanged. -/
def loadConfig (cfg : ParsedPipelineConfig) : Except ConfigError ParsedPipelineConfig :=
  if isAcyclic (connEdges cfg.connections) = false then
    Except.error ConfigError.cyclicPipelineError
  else if stagesReferencedValid cfg = false then
    Except.error ConfigError.unknownStageIndex
  else if ¬ (cfg.input_connection.map Prod.fst).Nodup then
    Except.error ConfigError.duplicateInputName
  else if ¬ (cfg.param_connection.map Prod.fst).Nodup then
    Except.error ConfigError.duplicateParamGroup
  else Except.ok cfg

/-- `PipelineConfig::Empty`: no stage-to-stage connection information. -/
def ParsedPipelineConfig.Empty (cfg : ParsedPipelineConfig) : Bool :=
  cfg.connections.isEmpty

/-- Modelled from the spec: `PipelineScheduler::PipelineInit` returns the
number of pipeline outputs; with stage port schemas out of scope this is
the number of sink stages (declared stages with no outgoing connection). -/
def pipelineInit (modules : List Module) (cfg : ParsedPipelineConfig) : Nat :=
  (cfg.stages.filter
    (fun s => !(connEdges cfg.connections).any (fun e => e.1 == s))).length

/-- Router lookup failures (section 4.3 taxonomy). -/
inductive RouterError where
  | unknownInput
  | unknownParameterGroup
deriving DecidableEq

/-- Modelled from the spec: `InputConnectionConfig::operator[]`
(`ResolveInput`): the declared `(stage, port)` pair for a known name,
`UnknownInput` for a name absent from the external input map. -/
def inputConnectionGet (m : List (String × Nat × String)) (name : String) :
    Except RouterError (Nat × String) :=
  match m.lookup name with
  | some p => Except.ok p
  | none => Except.error RouterError.unknownInput

/-- Modelled from the spec: `ParamConnectionConfig::operator[]`
(`ResolveParameterGroup`): the declared stage index for a known group
name, `UnknownParameterGroup` for an absent name. -/
def paramConnectionGet (m : List (String × Nat)) (name : String) :
    Except RouterError Nat :=
  match m.lookup name with
  | some i => Except.ok i
  | none => Except.error RouterError.unknownParameterGroup

/-- The executor facade state: the two routing maps and the output count. -/
structure PipelineExecutor where
  input_connection_config : List (String × Nat × String)
  param_connection_config : List (String × Nat)
  num_outputs_ : Nat
deriving DecidableEq

/-- `PipelineExecutor::GetInputPipeplineMap` (typo preserved from the
source): look the global input name up and return the destination stage
index rendered in decimal together with the destination port name. -/
def PipelineExecutor.GetInputPipeplineMap (ex : PipelineExecutor)
    (input_name : String) : Except RouterError (List String) :=
  match inputConnectionGet ex.input_connection_config input_name with
  | Except.ok map => Except.ok [Nat.repr map.1, map.2]
  | Except.error e => Except.error e

/-- `PipelineExecutor::NumOutputs`. -/
def PipelineExecutor.NumOutputs (ex : PipelineExecutor) : Nat :=
  ex.num_outputs_

/-- `PipelineExecutor::GetParamsGroupPipelineMap`: the module index for a
parameter group name. -/
def PipelineExecutor.GetParamsGroupPipelineMap (ex : PipelineExecutor)
    (name : String) : Except RouterError Nat :=
  paramConnectionGet ex.param_connection_config name

/-- A record of one `LoadParameters` invocation on a stage. -/
structure LoadParametersCall where
  stage : Nat
  data : DLTensor
deriving DecidableEq

/-- `PipelineExecutor::SetParam`: resolves the group name to a module
index; applying the parameter to the runtime module is left as a TODO in
the source, so on success the trace of `LoadParameters` calls is empty and
the executor state is returned unchanged. -/
def PipelineExecutor.SetParam (ex : PipelineExecutor) (param_group_name : String)
    (param_key_name : String) (data_in : DLTensor) :
    Except RouterError (PipelineExecutor × List LoadParametersCall) :=
  match ex.GetParamsGroupPipelineMap param_group_name with
  | Except.ok _module_index => Except.ok (ex, [])
  | Except.error e => Except.error e

/-- Initialization failures surfaced by `Init` / `PipelineExecutorCreate`. -/
inductive InitError where
  | emptyStageList
  | configError (e : ConfigError)
  | emptyPipelineConfig
deriving DecidableEq

/-- `PipelineExecutor::Init`: reject an empty module list, load the
configuration, reject an empty pipeline config, then wire the scheduler
(which yields the output count). -/
def PipelineExecutor.Init (modules : List Module)
    (pipeline_json : ParsedPipelineConfig) : Except InitError PipelineExecutor :=
  if modules.isEmpty then Except.error InitError.emptyStageList
  else
    match loadConfig pipeline_json with
    | Except.error e => Except.error (InitError.configError e)
    | Except.ok conf =>
      if conf.Empty then Except.error InitError.emptyPipelineConfig
      else Except.ok
        { input_connection_config := conf.input_connection
          param_connection_config := conf.param_connection
          num_outputs_ := pipelineInit modules conf }

/-- `PipelineExecutorCreate`: reject an empty module array, then `Init`. -/
def PipelineExecutorCreate (m : List Module)
    (pipeline_json : ParsedPipelineConfig) : Except InitError PipelineExecutor :=
  if m.isEmpty then Except.error InitError.emptyStageList
  else PipelineExecutor.Init m pipeline_json

/-- A TVM packed-function argument, as far as the facade inspects it. -/
inductive TVMArgValue where
  | vstr (s : String)
  | vint (n : Int)
  | vtensor (t : DLTensor)
deriving DecidableEq

/-- `String::CanConvertFrom`: the argument carries a string. -/
def canConvertToString : TVMArgValue → Bool
  | TVMArgValue.vstr _ => true
  | _ => false

/-- The packed functions the facade exposes. -/
inductive FuncTag where
  | get_num_outputs
  | get_input_pipeline_map
  | get_params_group_pipeline_map
  | set_param
deriving DecidableEq

/-- `PipelineExecutor::GetFunction`: dispatch on the requested name; an
unknown name fails fatally instead of yielding a callable. -/
def PipelineExecutor.GetFunction (name : String) : Except String FuncTag :=
  if name = "get_num_outputs" then Except.ok FuncTag.get_num_outputs
  else if name = "get_input_pipeline_map" then Except.ok FuncTag.get_input_pipeline_map
  else if name = "get_params_group_pipeline_map" then
    Except.ok FuncTag.get_params_group_pipeline_map
  else if name = "set_param" then Except.ok FuncTag.set_param
  else Except.error ("Unknown packed function: " ++ name)

/-- Result of invoking one of the packed functions. -/
inductive FuncResult where
  | retNum (n : Nat)
  | retStrings (l : List String)
  | retVoid
  | fatal (msg : String)
deriving DecidableEq

/-- The body of the packed-function closure for each exposed name: the
argument type checks mirror the source; the returned executor is the
post-call state. -/
def invokePacked (ex : PipelineExecutor) (tag : FuncTag)
    (a0 a1 a2 : TVMArgValue) : FuncResult × PipelineExecutor :=
  match tag with
  | FuncTag.get_num_outputs => (FuncResult.retNum ex.NumOutputs, ex)
  | FuncTag.get_input_pipeline_map =>
    match a0 with
    | TVMArgValue.vstr s =>
      match ex.GetInputPipeplineMap s with
      | Except.ok l => (FuncResult.retStrings l, ex)
      | Except.error _ =>
        (FuncResult.fatal "Not find the key in the input connection config", ex)
    | _ =>
      (FuncResult.fatal "Function only support the input name value in the form of string", ex)
  | FuncTag.get_params_group_pipeline_map =>
    match a0 with
    | TVMArgValue.vstr s =>
      match ex.GetParamsGroupPipelineMap s with
      | Except.ok i => (FuncResult.retNum i, ex)
      | Except.error _ =>
        (FuncResult.fatal "Do not support the key in the param connection config", ex)
    | _ =>
      (FuncResult.fatal "Function only support the input name value in the form of string", ex)
  | FuncTag.set_param =>
    match a0, a1 with
    | TVMArgValue.vstr g, TVMArgValue.vstr k =>
      match a2 with
      | TVMArgValue.vtensor t =>
        match ex.SetParam g k t with
        | Except.ok (ex2, _calls) => (FuncResult.retVoid, ex2)
        | Except.error _ =>
          (FuncResult.fatal "Do not support the key in the param connection config", ex)
      | _ => (FuncResult.fatal "Expect argument 2 to be a DLTensor", ex)
    | _, _ =>
      (FuncResult.fatal "Function only support the parameter name and the key in the form of string", ex)

/-- One observable step of `CreateGraphModules` for one stage. -/
inductive LoadStep where
  | loadLib (file : String)
  | readGraphJson (file : String) (content : String)
  | createGraphExecutor (json : String) (device_type : Int) (device_id : Int)
  | loadParams (file : String) (content : String)
deriving DecidableEq

/-- Failures of `CreateGraphModules`. -/
inductive CgmError where
  | jsonFileNotFound (f : String)
  | paramsFileNotFound (f : String)
  | stoiFailure
deriving DecidableEq

/-- The ambient file system, as a name-to-contents association list. -/
def readFile (fs : List (String × String)) (name : String) : Option String :=
  fs.lookup name

/-- `std::getline(stream, out, delim)` driven to exhaustion: the chunks it
yields.  A trailing delimiter produces no extra empty chunk, an empty
stream yields nothing. -/
def splitChunks (delim : Char) : List Char → List (List Char)
  | [] => [[]]
  | c :: cs =>
    if c = delim then [] :: splitChunks delim cs
    else
      match splitChunks delim cs with
      | [] => [[c]]
      | h :: t => (c :: h) :: t

/-- All chunks `getline` yields from a character stream. -/
def getlineAll (delim : Char) (cs : List Char) : List (List Char) :=
  if cs = [] then []
  else
    let parts := splitChunks delim cs
    if cs.getLast? = some delim then parts.dropLast else parts

/-- The numeric value of a digit run, `none` when it is empty
(`std::stoi` would throw). -/
def natDigits (cs : List Char) : Option Nat :=
  let ds := cs.takeWhile (fun c => c.isDigit)
  if ds = [] then none
  else some (ds.foldl (fun acc c => acc * 10 + (c.toNat - 48)) 0)

/-- `std::stoi`: skip leading whitespace, read an optional sign and a
nonempty digit run, ignore the rest; `none` models the thrown
`invalid_argument`. -/
def stoiCore (cs : List Char) : Option Int :=
  let cs2 := cs.dropWhile
    (fun c => c = ' ' || c = '\t' || c = '\n' || c = '\x0b' || c = '\x0c' || c = '\r')
  match cs2 with
  | '-' :: rest => (natDigits rest).map (fun n => -(n : Int))
  | '+' :: rest => (natDigits rest).map (fun n => (n : Int))
  | rest => (natDigits rest).map (fun n => (n : Int))

/-- The device-descriptor parsing loop of `CreateGraphModules`: chunks
split on `;`; in each chunk the first line (if any) updates the device
type and the second line (if any) the device id; values carry over between
chunks, starting from device type 1 and device id 0. -/
def parseDeviceConfig (dev : String) : Option (Int × Int) :=
  (getlineAll ';' dev.toList).foldl
    (fun acc chunk =>
      match acc with
      | none => none
      | some (dt, di) =>
        match getlineAll '\n' chunk with
        | [] => some (dt, di)
        | [l0] =>
          match stoiCore l0 with
          | none => none
          | some v => some (v, di)
        | l0 :: l1 :: _ =>
          match stoiCore l0, stoiCore l1 with
          | some v0, some v1 => some (v0, v1)
          | _, _ => none)
    (some (1, 0))

/-- One stage of `CreateGraphModules`: load the library, read the graph
json (fatal if missing), parse the device descriptor, instantiate the
graph executor on that device, then read and load the serialized
parameters (fatal if missing).  The step list records the observable
actions in source order, also on the failing paths. -/
def createOneGraphModule (fs : List (String × String)) (info : GraphModuleLoadInfo) :
    Except (CgmError × List LoadStep) (Module × List LoadStep) :=
  match readFile fs info.json_name with
  | none =>
    Except.error (CgmError.jsonFileNotFound info.json_name,
      [LoadStep.loadLib info.lib_name])
  | some json =>
    match parseDeviceConfig info.dev with
    | none =>
      Except.error (CgmError.stoiFailure,
        [LoadStep.loadLib info.lib_name, LoadStep.readGraphJson info.json_name json])
    | some (dt, di) =>
      match readFile fs info.params_name with
      | none =>
        Except.error (CgmError.paramsFileNotFound info.params_name,
          [LoadStep.loadLib info.lib_name, LoadStep.readGraphJson info.json_name json,
           LoadStep.createGraphExecutor json dt di])
      | some params =>
        Except.ok (Module.graphExecutor json (Module.loadedFromFile info.lib_name) dt di,
          [LoadStep.loadLib info.lib_name, LoadStep.readGraphJson info.json_name json,
           LoadStep.createGraphExecutor json dt di,
           LoadStep.loadParams info.params_name params])

/-- `PipelineExecutor::CreateGraphModules`: process every stage entry of
the module configuration, concatenating per-stage step traces. -/
def CreateGraphModules (fs : List (String × String)) :
    ModuleConfig → Except (CgmError × List LoadStep) (List (Nat × Module) × List LoadStep)
  | [] => Except.ok ([], [])
  | c :: rest =>
    match createOneGraphModule fs c.2 with
    | Except.error (e, tr) => Except.error (e, tr)
    | Except.ok (m, tr) =>
      match CreateGraphModules fs rest with
      | Except.error (e, tr2) => Except.error (e, tr ++ tr2)
      | Except.ok (ms, tr2) => Except.ok ((c.1, m) :: ms, tr ++ tr2)

/-! ### Association-list lookup facts -/

theorem lookup_eq_none_of_not_mem {β : Type} {l : List (String × β)} {k : String}
    (h : k ∉ l.map Prod.fst) : l.lookup k = none := by
  induction l with
  | nil => rfl
  | cons hd tl ih =>
    rw [List.map_cons, List.mem_cons] at h
    push_neg at h
    cases hd with
    | mk a b =>
      simp only [List.lookup]
      rw [beq_false_of_ne h.1]
      exact ih h.2

theorem lookup_eq_some_of_mem {β : Type} {l : List (String × β)} {k : String} {v : β}
    (hnd : (l.map Prod.fst).Nodup) (hmem : (k, v) ∈ l) : l.lookup k = some v := by
  induction l with
  | nil => cases hmem
  | cons hd tl ih =>
    rw [List.map_cons, List.nodup_cons] at hnd
    rcases List.mem_cons.mp hmem with heq | hmem2
    · rw [← heq]
      simp [List.lookup]
    · cases hd with
      | mk a b =>
        have hk : k ≠ a := by
          intro hkk
          exact hnd.1 (hkk ▸ (List.mem_map.mpr ⟨(k, v), hmem2, rfl⟩))
        simp only [List.lookup]
        rw [beq_false_of_ne hk]
        exact ih hnd.2 hmem2

/-! ### Elimination facts for `loadConfig` and `Init` -/

theorem loadConfig_ok_elim {cfg conf : ParsedPipelineConfig}
    (h : loadConfig cfg = Except.ok conf) :
    conf = cfg ∧ (cfg.input_connection.map Prod.fst).Nodup ∧
      (cfg.param_connection.map Prod.fst).Nodup := by
  unfold loadConfig at h
  split_ifs at h with h1 h2 h3 h4
  injection h with h5
  exact ⟨h5.symm, h3, h4⟩

theorem Init_ok_elim {modules : List Module} {cfg : ParsedPipelineConfig}
    {ex : PipelineExecutor} (h : PipelineExecutor.Init modules cfg = Except.ok ex) :
    loadConfig cfg = Except.ok cfg ∧
      ex.input_connection_config = cfg.input_connection ∧
      ex.param_connection_config = cfg.param_connection := by
  unfold PipelineExecutor.Init at h
  split at h
  · exact Except.noConfusion h
  · split at h
    next e heq => exact Except.noConfusion h
    next conf heq =>
      split at h
      · exact Except.noConfusion h
      · injection h with h2
        obtain ⟨rfl, _, _⟩ := loadConfig_ok_elim heq
        rw [← h2]
        exact ⟨heq, rfl, rfl⟩

/-! ### Claims -/

/-- C1: after a successful `Init`, querying any declared external input
name returns exactly the declared (stage, port) pair (the stage index
rendered in decimal), and querying any declared parameter group name
returns exactly the declared stage index. -/
theorem c1_load_then_query_declared (modules : List Module)
    (cfg : ParsedPipelineConfig) (ex : PipelineExecutor)
    (hinit : PipelineExecutor.Init modules cfg = Except.ok ex) :
    (∀ name idx port, (name, idx, port) ∈ cfg.input_connection →
        ex.GetInputPipeplineMap name = Except.ok [Nat.repr idx, port]) ∧
    (∀ name idx, (name, idx) ∈ cfg.param_connection →
        ex.GetParamsGroupPipelineMap name = Except.ok idx) := by
  obtain ⟨hload, hic, hpc⟩ := Init_ok_elim hinit
  obtain ⟨_, hnd1, hnd2⟩ := loadConfig_ok_elim hload
  constructor
  · intro name idx port hmem
    unfold PipelineExecutor.GetInputPipeplineMap inputConnectionGet
    rw [hic, lookup_eq_some_of_mem hnd1 hmem]
  · intro name idx hmem
    unfold PipelineExecutor.GetParamsGroupPipelineMap paramConnectionGet
    rw [hpc, lookup_eq_some_of_mem hnd2 hmem]

/-- Concrete two-stage configuration used by witnesses: input "x" feeds
stage 0 port "data", group "g1" belongs to stage 1, stage 0 output "y"
feeds stage 1 port "yin". -/
def cfgW : ParsedPipelineConfig :=
  { stages := [0, 1]
    connections := [(0, "y", 1, "yin")]
    input_connection := [("x", 0, "data")]
    param_connection := [("g1", 1)] }

/-- Executor produced by a successful `Init` on `cfgW`. -/
def exW : PipelineExecutor :=
  { input_connection_config := [("x", 0, "data")]
    param_connection_config := [("g1", 1)]
    num_outputs_ := 1 }

/-- Witness for C1 at the concrete configuration `cfgW`. -/
theorem c1_witness :
    exW.GetInputPipeplineMap "x" = Except.ok [Nat.repr 0, "data"] ∧
      exW.GetParamsGroupPipelineMap "g1" = Except.ok 1 :=
  ⟨(c1_load_then_query_declared [Module.loadedFromFile "m"] cfgW exW rfl).1
      "x" 0 "data" (by decide),
   (c1_load_then_query_declared [Module.loadedFromFile "m"] cfgW exW rfl).2
      "g1" 1 (by decide)⟩

/-- Executor used for the parameter-stub analysis: group "g1" declared to
stage 2. -/
def exParam : PipelineExecutor :=
  { input_connection_config := []
    param_connection_config := [("g1", 2)]
    num_outputs_ := 0 }

/-- C2 (code bug): `SetParam("g1", "w", data)` with "g1" mapped to stage 2
does resolve the group to stage 2, but because the parameter application
is an unimplemented TODO in the source, it completes with an empty
`LoadParameters` call trace and an unchanged executor: stage 2's
`LoadParameters` is never invoked. -/
theorem c2_setparam_makes_no_loadparameters_call :
    exParam.SetParam "g1" "w" { id := 0 } =
      Except.ok (exParam, ([] : List LoadParametersCall)) ∧
    exParam.GetParamsGroupPipelineMap "g1" = Except.ok 2 :=
  ⟨rfl, rfl⟩

/-- C3: resolving an input name absent from the external input map fails
with `UnknownInput` instead of returning a mapping. -/
theorem c3_unknown_input_rejected (ex : PipelineExecutor) (name : String)
    (h : name ∉ ex.input_connection_config.map Prod.fst) :
    ex.GetInputPipeplineMap name = Except.error RouterError.unknownInput := by
  unfold PipelineExecutor.GetInputPipeplineMap inputConnectionGet
  rw [lookup_eq_none_of_not_mem h]

/-- Witness for C3: the name "absent" is not in `exW`'s input map. -/
theorem c3_witness :
    exW.GetInputPipeplineMap "absent" = Except.error RouterError.unknownInput :=
  c3_unknown_input_rejected exW "absent" (by decide)

/-- C4: resolving a group name absent from the parameter group map fails
with `UnknownParameterGroup`, the `SetParam` path propagates the same
failure, and the packed `set_param` path leaves the executor state
unchanged for every third argument. -/
theorem c4_unknown_param_group (ex : PipelineExecutor) (name key : String)
    (data : DLTensor) (h : name ∉ ex.param_connection_config.map Prod.fst) :
    ex.GetParamsGroupPipelineMap name = Except.error RouterError.unknownParameterGroup ∧
      ex.SetParam name key data = Except.error RouterError.unknownParameterGroup ∧
      ∀ a2, (invokePacked ex FuncTag.set_param
        (TVMArgValue.vstr name) (TVMArgValue.vstr key) a2).2 = ex := by
  have h1 : ex.GetParamsGroupPipelineMap name =
      Except.error RouterError.unknownParameterGroup := by
    unfold PipelineExecutor.GetParamsGroupPipelineMap paramConnectionGet
    rw [lookup_eq_none_of_not_mem h]
  have h2 : ex.SetParam name key data =
      Except.error RouterError.unknownParameterGroup := by
    unfold PipelineExecutor.SetParam
    rw [h1]
  refine ⟨h1, h2, ?_⟩
  intro a2
  cases a2 with
  | vtensor t =>
    have h3 : ex.SetParam name key t =
        Except.error RouterError.unknownParameterGroup := by
      unfold PipelineExecutor.SetParam
      rw [h1]
    simp only [invokePacked, h3]
  | vstr s => rfl
  | vint n => rfl

/-- Witness for C4: the group "absent" is not in `exW`'s parameter map. -/
theorem c4_witness :
    exW.GetParamsGroupPipelineMap "absent" =
        Except.error RouterError.unknownParameterGroup ∧
      exW.SetParam "absent" "w" { id := 0 } =
        Except.error RouterError.unknownParameterGroup ∧
      ∀ a2, (invokePacked exW FuncTag.set_param
        (TVMArgValue.vstr "absent") (TVMArgValue.vstr "w") a2).2 = exW :=
  c4_unknown_param_group exW "absent" "w" { id := 0 } (by decide)

/-- C5: the two map queries are pure lookups: invoked through the packed
interface on any arguments (known or unknown name, even a non-string
argument), they return the executor state unchanged. -/
theorem c5_lookups_are_pure (ex : PipelineExecutor) (a0 a1 a2 : TVMArgValue) :
    (invokePacked ex FuncTag.get_input_pipeline_map a0 a1 a2).2 = ex ∧
      (invokePacked ex FuncTag.get_params_group_pipeline_map a0 a1 a2).2 = ex := by
  constructor
  · cases a0 with
    | vstr s =>
      rcases hres : ex.GetInputPipeplineMap s with e | l
      · simp [invokePacked, hres]
      · simp [invokePacked, hres]
    | vint n => rfl
    | vtensor t => rfl
  · cases a0 with
    | vstr s =>
      rcases hres : ex.GetParamsGroupPipelineMap s with e | i
      · simp [invokePacked, hres]
      · simp [invokePacked, hres]
    | vint n => rfl
    | vtensor t => rfl

/-- C6: for every configuration text, `Init` with an empty module list and
the `create` entry point with an empty module array both fail with the
empty-stage-list error and construct no pipeline. -/
theorem c6_empty_module_list_rejected (cfg : ParsedPipelineConfig) :
    PipelineExecutor.Init [] cfg = Except.error InitError.emptyStageList ∧
      PipelineExecutorCreate [] cfg = Except.error InitError.emptyStageList :=
  ⟨rfl, rfl⟩

/-- C9: for an input name present in the map, `GetInputPipeplineMap`
returns the destination stage index encoded as a decimal string together
with the port name, as a two-element array of strings. -/
theorem c9_input_map_string_encoding (ex : PipelineExecutor) (name : String)
    (idx : Nat) (port : String)
    (h : ex.input_connection_config.lookup name = some (idx, port)) :
    ex.GetInputPipeplineMap name = Except.ok [Nat.repr idx, port] ∧
      ∀ l, ex.GetInputPipeplineMap name = Except.ok l → l.length = 2 := by
  have h1 : ex.GetInputPipeplineMap name = Except.ok [Nat.repr idx, port] := by
    unfold PipelineExecutor.GetInputPipeplineMap inputConnectionGet
    rw [h]
  refine ⟨h1, ?_⟩
  intro l hl
  rw [h1] at hl
  injection hl with h2
  rw [← h2]
  rfl

/-- Witness for C9 at `exW`: stage 0 is rendered as the string "0". -/
theorem c9_witness :
    exW.GetInputPipeplineMap "x" = Except.ok [Nat.repr 0, "data"] ∧
      ∀ l, exW.GetInputPipeplineMap "x" = Except.ok l → l.length = 2 :=
  c9_input_map_string_encoding exW "x" 0 "data" rfl

/-! ### Cycle detection: a cycle survives iterated source elimination -/

theorem getD_eq_get {l : List Nat} {i : Nat} (h : i < l.length) :
    l.getD i 0 = l.get ⟨i, h⟩ := by
  rw [List.getD_eq_get?, List.get?_eq_get h]
  rfl

theorem getD_mem_of_lt {l : List Nat} {i : Nat} (h : i < l.length) :
    l.getD i 0 ∈ l := by
  rw [getD_eq_get h]
  exact l.get_mem _ _

/-- Every vertex of a cycle has a predecessor inside the cycle. -/
theorem IsCycle.pred_mem {es : List (Nat × Nat)} {l : List Nat}
    (h : IsCycle es l) : ∀ v ∈ l, ∃ u ∈ l, (u, v) ∈ es := by
  obtain ⟨hne, hcyc⟩ := h
  intro v hv
  obtain ⟨⟨i, hi⟩, hgi⟩ := List.mem_iff_get.mp hv
  have hlen : 0 < l.length := Nat.lt_of_le_of_lt (Nat.zero_le i) hi
  cases i with
  | zero =>
    have hj : l.length - 1 < l.length := Nat.sub_lt hlen Nat.one_pos
    have hedge := hcyc (l.length - 1) hj
    have hmod : (l.length - 1 + 1) % l.length = 0 := by
      rw [Nat.sub_add_cancel hlen, Nat.mod_self]
    rw [hmod] at hedge
    refine ⟨l.getD (l.length - 1) 0, getD_mem_of_lt hj, ?_⟩
    have h0 : l.getD 0 0 = v := by
      rw [getD_eq_get hlen]
      exact hgi
    rwa [h0] at hedge
  | succ k =>
    have hk : k < l.length := Nat.lt_of_succ_lt hi
    have hedge := hcyc k hk
    have hmod : (k + 1) % l.length = k + 1 := Nat.mod_eq_of_lt hi
    rw [hmod] at hedge
    refine ⟨l.getD k 0, getD_mem_of_lt hk, ?_⟩
    have h1 : l.getD (k + 1) 0 = v := by
      rw [getD_eq_get hi]
      exact hgi
    rwa [h1] at hedge

/-- A set of vertices each of which has an in-set predecessor edge is
preserved by one elimination round. -/
theorem mem_removeSources {es : List (Nat × Nat)} {s l : List Nat}
    (hpred : ∀ v ∈ l, ∃ u ∈ l, (u, v) ∈ es)
    (hsub : ∀ v ∈ l, v ∈ s) : ∀ v ∈ l, v ∈ removeSources es s := by
  intro v hv
  obtain ⟨u, hu, he⟩ := hpred v hv
  unfold removeSources
  rw [List.mem_filter]
  refine ⟨hsub v hv, ?_⟩
  rw [List.any_eq_true]
  refine ⟨(u, v), he, ?_⟩
  simp [hsub u hu]

/-- A set of vertices each of which has an in-set predecessor edge
survives any number of elimination rounds. -/
theorem mem_kahnIter {es : List (Nat × Nat)} {l : List Nat}
    (hpred : ∀ v ∈ l, ∃ u ∈ l, (u, v) ∈ es) :
    ∀ (n : Nat) (s : List Nat), (∀ v ∈ l, v ∈ s) →
      ∀ v ∈ l, v ∈ kahnIter es n s := by
  intro n
  induction n with
  | zero =>
    intro s hsub v hv
    exact hsub v hv
  | succ m ih =>
    intro s hsub v hv
    exact ih (removeSources es s) (mem_removeSources hpred hsub) v hv

/-- Completeness of the acyclicity check: a graph containing a cycle is
reported cyclic. -/
theorem isAcyclic_eq_false_of_cycle {es : List (Nat × Nat)} {l : List Nat}
    (h : IsCycle es l) : isAcyclic es = false := by
  have hpred := h.pred_mem
  have hsub : ∀ v ∈ l, v ∈ graphNodes es := by
    intro v hv
    obtain ⟨u, hu, he⟩ := hpred v hv
    unfold graphNodes
    rw [List.mem_dedup, List.mem_append]
    right
    exact List.mem_map.mpr ⟨(u, v), he, rfl⟩
  obtain ⟨v0, hv0⟩ := List.exists_mem_of_ne_nil l h.1
  have hker := mem_kahnIter hpred (graphNodes es).length (graphNodes es) hsub v0 hv0
  unfold isAcyclic
  rcases heq : kahnIter es (graphNodes es).length (graphNodes es) with _ | ⟨a, t⟩
  · rw [heq] at hker
    cases hker
  · rfl

/-- C7: a configuration whose connection map contains a cycle among stage
indices is rejected at load time with `CyclicPipelineError`, and no
pipeline executor is ever constructed from it. -/
theorem c7_cyclic_config_rejected (cfg : ParsedPipelineConfig) (l : List Nat)
    (hcyc : IsCycle (connEdges cfg.connections) l) :
    loadConfig cfg = Except.error ConfigError.cyclicPipelineError ∧
      ∀ modules ex, PipelineExecutor.Init modules cfg ≠ Except.ok ex := by
  have hfalse : isAcyclic (connEdges cfg.connections) = false :=
    isAcyclic_eq_false_of_cycle hcyc
  have hload : loadConfig cfg = Except.error ConfigError.cyclicPipelineError := by
    unfold loadConfig
    rw [if_pos hfalse]
  refine ⟨hload, ?_⟩
  intro modules ex h
  obtain ⟨hok, _, _⟩ := Init_ok_elim h
  rw [hload] at hok
  exact Except.noConfusion hok

/-- Concrete cyclic configuration: stage 0 feeds stage 1 and stage 1
feeds stage 0. -/
def cfgCyc : ParsedPipelineConfig :=
  { stages := [0, 1]
    connections := [(0, "a", 1, "b"), (1, "c", 0, "d")]
    input_connection := []
    param_connection := [] }

/-- Witness for C7 at the concrete cyclic configuration `cfgCyc`. -/
theorem c7_witness :
    loadConfig cfgCyc = Except.error ConfigError.cyclicPipelineError ∧
      ∀ modules ex, PipelineExecutor.Init modules cfgCyc ≠ Except.ok ex :=
  c7_cyclic_config_rejected cfgCyc [0, 1] (by decide)

/-! ### Loading order of `CreateGraphModules` -/

theorem createOne_ok_elim {fs : List (String × String)}
    {info : GraphModuleLoadInfo} {m : Module} {tr : List LoadStep}
    (h : createOneGraphModule fs info = Except.ok (m, tr)) :
    ∃ json params dt di,
      readFile fs info.json_name = some json ∧
      parseDeviceConfig info.dev = some (dt, di) ∧
      readFile fs info.params_name = some params ∧
      tr = [LoadStep.loadLib info.lib_name,
            LoadStep.readGraphJson info.json_name json,
            LoadStep.createGraphExecutor json dt di,
            LoadStep.loadParams info.params_name params] := by
  unfold createOneGraphModule at h
  split at h
  · exact Except.noConfusion h
  next json hjson =>
    split at h
    · exact Except.noConfusion h
    next dt di hdev =>
      split at h
      · exact Except.noConfusion h
      next params hparams =>
        injection h with h2
        obtain ⟨h3, h4⟩ := Prod.mk.injEq .. ▸ h2
        exact ⟨json, params, dt, di, hjson, hdev, hparams, h4.symm⟩

/-- C8: whenever `CreateGraphModules` succeeds, its step trace contains,
for every stage entry of the module configuration, the four loading steps
contiguously and in source order: load the compiled library, read the
graph json, instantiate the graph executor on the parsed device target,
then load the serialized parameters. -/
theorem c8_loading_order (fs : List (String × String)) (cfg : ModuleConfig)
    (mods : List (Nat × Module)) (trace : List LoadStep)
    (h : CreateGraphModules fs cfg = Except.ok (mods, trace)) :
    ∀ idx info, (idx, info) ∈ cfg →
      ∃ pre post json params dt di,
        readFile fs info.json_name = some json ∧
        parseDeviceConfig info.dev = some (dt, di) ∧
        readFile fs info.params_name = some params ∧
        trace = pre ++
          [LoadStep.loadLib info.lib_name,
           LoadStep.readGraphJson info.json_name json,
           LoadStep.createGraphExecutor json dt di,
           LoadStep.loadParams info.params_name params] ++ post := by
  revert h
  induction cfg generalizing mods trace with
  | nil =>
    intro _ idx info hmem
    cases hmem
  | cons c rest ih =>
    intro h idx info hmem
    unfold CreateGraphModules at h
    split at h
    · exact Except.noConfusion h
    next m tr hone =>
      split at h
      · exact Except.noConfusion h
      next ms tr2 hrest =>
        injection h with h2
        obtain ⟨hmods, htrace⟩ := Prod.mk.injEq .. ▸ h2
        rcases List.mem_cons.mp hmem with heq | hmem2
        · obtain ⟨json, params, dt, di, hj, hd, hp, htr⟩ := createOne_ok_elim hone
          rw [← heq] at htr hj hd hp
          refine ⟨[], tr2, json, params, dt, di, hj, hd, hp, ?_⟩
          rw [← htrace, htr]
          simp
        · obtain ⟨pre, post, json, params, dt, di, hj, hd, hp, htr⟩ :=
            ih ms tr2 hrest idx info hmem2
          refine ⟨tr ++ pre, post, json, params, dt, di, hj, hd, hp, ?_⟩
          rw [← htrace, htr]
          simp

/-- Concrete artifact description used by the C8 witness. -/
def infoW : GraphModuleLoadInfo :=
  { lib_name := "stage0.so"
    json_name := "stage0.json"
    params_name := "stage0.params"
    dev := "2" }

/-- Concrete file system for the C8 witness. -/
def fsW : List (String × String) :=
  [("stage0.json", "GRAPH"), ("stage0.params", "PARAMS")]

/-- Witness for C8 at a one-stage module configuration. -/
theorem c8_witness :
    ∃ pre post json params dt di,
      readFile fsW infoW.json_name = some json ∧
      parseDeviceConfig infoW.dev = some (dt, di) ∧
      readFile fsW infoW.params_name = some params ∧
      [LoadStep.loadLib "stage0.so", LoadStep.readGraphJson "stage0.json" "GRAPH",
       LoadStep.createGraphExecutor "GRAPH" 2 0,
       LoadStep.loadParams "stage0.params" "PARAMS"] = pre ++
        [LoadStep.loadLib infoW.lib_name,
         LoadStep.readGraphJson infoW.json_name json,
         LoadStep.createGraphExecutor json dt di,
         LoadStep.loadParams infoW.params_name params] ++ post :=
  c8_loading_order fsW [(0, infoW)]
    [(0, Module.graphExecutor "GRAPH" (Module.loadedFromFile "stage0.so") 2 0)]
    [LoadStep.loadLib "stage0.so", LoadStep.readGraphJson "stage0.json" "GRAPH",
     LoadStep.createGraphExecutor "GRAPH" 2 0,
     LoadStep.loadParams "stage0.params" "PARAMS"]
    rfl 0 infoW (List.mem_singleton.mpr rfl)

/-! ### The packed-function surface -/

/-- C10: `GetFunction` exposes exactly the four packed functions
"get_num_outputs", "get_input_pipeline_map", "get_params_group_pipeline_map"
and "set_param" and fails fatally on every other name; the two map queries
fail fatally on a non-string name argument, and `set_param` fails fatally
when the group name or the key is not a string. -/
theorem c10_packed_surface (name : String) (ex : PipelineExecutor)
    (a0 a1 a2 : TVMArgValue) :
    (PipelineExecutor.GetFunction "get_num_outputs" =
        Except.ok FuncTag.get_num_outputs ∧
      PipelineExecutor.GetFunction "get_input_pipeline_map" =
        Except.ok FuncTag.get_input_pipeline_map ∧
      PipelineExecutor.GetFunction "get_params_group_pipeline_map" =
        Except.ok FuncTag.get_params_group_pipeline_map ∧
      PipelineExecutor.GetFunction "set_param" = Except.ok FuncTag.set_param) ∧
    (name ∉ ["get_num_outputs", "get_input_pipeline_map",
        "get_params_group_pipeline_map", "set_param"] →
      PipelineExecutor.GetFunction name =
        Except.error ("Unknown packed function: " ++ name)) ∧
    (canConvertToString a0 = false →
      (invokePacked ex FuncTag.get_input_pipeline_map a0 a1 a2).1 =
          FuncResult.fatal "Function only support the input name value in the form of string" ∧
        (invokePacked ex FuncTag.get_params_group_pipeline_map a0 a1 a2).1 =
          FuncResult.fatal "Function only support the input name value in the form of string") ∧
    (canConvertToString a0 = false ∨ canConvertToString a1 = false →
      (invokePacked ex FuncTag.set_param a0 a1 a2).1 =
        FuncResult.fatal "Function only support the parameter name and the key in the form of string") := by
  refine ⟨⟨rfl, rfl, rfl, rfl⟩, ?_, ?_, ?_⟩
  · intro hname
    simp only [List.mem_cons, List.not_mem_nil, or_false, not_or] at hname
    obtain ⟨hn1, hn2, hn3, hn4⟩ := hname
    unfold PipelineExecutor.GetFunction
    rw [if_neg hn1, if_neg hn2, if_neg hn3, if_neg hn4]
  · intro hconv
    cases a0 with
    | vstr s => exact absurd hconv (by simp [canConvertToString])
    | vint n => exact ⟨rfl, rfl⟩
    | vtensor t => exact ⟨rfl, rfl⟩
  · intro hconv
    cases a0 with
    | vstr s0 =>
      cases a1 with
      | vstr s1 =>
        rcases hconv with hc | hc <;>
          exact absurd hc (by simp [canConvertToString])
      | vint n => rfl
      | vtensor t => rfl
    | vint n => cases a1 <;> rfl
    | vtensor t => cases a1 <;> rfl

/-- Witness for C10: an unknown name fails fatally and non-string
arguments are rejected fatally. -/
theorem c10_witness :
    PipelineExecutor.GetFunction "run" =
        Except.error ("Unknown packed function: " ++ "run") ∧
      (invokePacked exW FuncTag.get_input_pipeline_map
          (TVMArgValue.vint 3) (TVMArgValue.vint 4) (TVMArgValue.vint 5)).1 =
        FuncResult.fatal "Function only support the input name value in the form of string" ∧
      (invokePacked exW FuncTag.set_param
          (TVMArgValue.vint 3) (TVMArgValue.vint 4) (TVMArgValue.vint 5)).1 =
        FuncResult.fatal "Function only support the parameter name and the key in the form of string" :=
  ⟨(c10_packed_surface "run" exW
      (TVMArgValue.vint 3) (TVMArgValue.vint 4) (TVMArgValue.vint 5)).2.1
      (by decide),
   ((c10_packed_surface "run" exW
      (TVMArgValue.vint 3) (TVMArgValue.vint 4) (TVMArgValue.vint 5)).2.2.1
      rfl).1,
   (c10_packed_surface "run" exW
      (TVMArgValue.vint 3) (TVMArgValue.vint 4) (TVMArgValue.vint 5)).2.2.2
      (Or.inl rfl)⟩

end TVMPipe
